import Mathlib

/-!
Verification development for the HTMap map-lifecycle manager.

The repository ships the htmap package together with its documentation
(`docs/source/devs/innards.rst`, tutorials, version notes).  The Python
implementation modules (`mapping.py`, `maps.py`, `tags.py`, `state.py`,
`htio.py`) are not part of the source tree given here, so the operations
below are shallow embeddings modelled from the specification and from the
repository documentation, as noted on each definition.  Durable state (the
on-disk map store) is passed explicitly; operations that can fail return
the (possibly updated) store together with an `Except` result, so that a
raised error never rolls back a durable write.
-/

namespace HTMap

/-- A binary blob: a sequence of bytes, modelled as a list of naturals. -/
abbrev Blob := List Nat

/-- Modelled from the spec: arbitrary Python objects handled by the
serialization layer (function inputs and outputs).  Modelled as naturals;
only their identity under encode/decode matters here. -/
abbrev Value := Nat

/-- A map identifier (tag). -/
abbrev Tag := String

/-- Modelled from the spec: the serialization layer's `encode(value) -> bytes`
(cloudpickle in the implementation, which is not under src/).  A one-byte
format header followed by the payload. -/
def encode (v : Value) : Blob := [1, v]

/-- A low-level decode failure (e.g. a serialization-format version mismatch). -/
inductive DecodeErr where
  | badFormat
deriving DecidableEq, Repr

/-- Modelled from the spec: the serialization layer's `decode(bytes) -> value`.
Blobs not produced by `encode` (wrong header, wrong length) fail to decode. -/
def decode : Blob → Except DecodeErr Value
  | [1, v] => .ok v
  | _ => .error .badFormat

/-- One row of itemdata: the per-component submission payload handed to the
external scheduler, i.e. the component index plus the merged per-component
option overrides.  Modelled from the spec (Data Model, Itemdata). -/
structure ItemdataRow where
  component : Nat
  extra : List (String × String)
deriving DecidableEq, Repr

/-- Map options: scheduler-level submit descriptors, with fixed options
applying to every component and variadic options giving one override list
per component.  Modelled from the spec and `docs/source/api.rst`
(MapOptions: fixed options and variadic options). -/
structure MapOptions where
  fixed : List (String × String)
  variadic : List (List (String × String))
deriving DecidableEq, Repr

/-- Build the itemdata for a map of `n` components: one row per input, in
input order, merging the fixed options with that component's overrides.
Modelled from the spec: "builds itemdata (one row per input, merging any
per-component option overrides)". -/
def buildItemdata (n : Nat) (opts : MapOptions) : List ItemdataRow :=
  (List.range n).map fun i => ⟨i, opts.fixed ++ opts.variadic.getD i []⟩

/-- The per-component slots of the durable store: an optional output blob and
an optional error-report blob for one component index.  Modelled from the
spec (persisted state layout: per-component output-or-error blob). -/
structure ComponentFiles where
  outputBlob : Option Blob := none
  errorBlob : Option Blob := none
deriving DecidableEq, Repr

/-- The on-disk directory of one map: every record the store keeps for it.
Modelled from `docs/source/devs/innards.rst` (Serializing and Deserializing
Data): itemdata, number of components, cluster IDs, per-component input
blobs, per-component output/error blobs, and the encoded function. -/
structure MapDir where
  funcBlob : Blob
  itemdata : List ItemdataRow
  componentCount : Nat
  inputBlobs : List Blob
  clusterIds : List Nat
  components : List ComponentFiles
deriving DecidableEq, Repr

/-- The durable map store: the tag directory, mapping each tag to the map
directory it names.  Modelled from `docs/source/devs/innards.rst` (Data
Model): tag files act as a file-based map from tags to map directories. -/
abbrev Store := List (Tag × MapDir)

/-- Look a tag up in the store. -/
def lookupMap (s : Store) (t : Tag) : Option MapDir :=
  match s with
  | [] => none
  | (t₀, d₀) :: rest => if t₀ = t then some d₀ else lookupMap rest t

/-- All identifiers currently known to the store (`list_identifiers`). -/
def list_identifiers (s : Store) : List Tag := s.map Prod.fst

/-- Delete every record of a tag from the store (idempotent). -/
def storeDelete (s : Store) (t : Tag) : Store :=
  s.filter fun e => e.1 ≠ t

/-- The error taxonomy of the lifecycle manager, as named by the repository
(`TagAlreadyExists` appears in the tutorial traceback; the rest are
modelled from the spec's error-handling design). -/
inductive HtErr where
  | tagAlreadyExists (tag : Tag)
  | tagNotFound (tag : Tag)
  | mapNotRemoved (tag : Tag)
  | schedulerUnavailable
  | deserializationError (component : Nat)
  | outputNotFound (component : Nat)
deriving DecidableEq, Repr

/-- The external scheduler as the core sees it: whether it can currently be
reached, and the cluster id it hands back on a successful submission.
Modelled from the spec (external scheduler submission interface). -/
structure Scheduler where
  reachable : Bool
  nextClusterId : Nat
deriving DecidableEq, Repr

/-- Modelled from the spec and the tutorial traceback
(`mapping.create_map` calls `tags.raise_if_tag_already_exists` before doing
anything else): create and submit a map.  The duplicate-tag check happens
first and raises `tagAlreadyExists` with no store write; otherwise the
function is encoded once, each input independently, the itemdata is built,
and all records are written durably *before* the scheduler is contacted.
Only after the scheduler accepts is the returned cluster id recorded.  If
the scheduler is unreachable (never confirms), `schedulerUnavailable`
is raised but the durable write stays on disk, keeping the map
resubmittable from disk alone. -/
def create_map (sched : Scheduler) (s : Store) (tag : Tag)
    (func : Value) (inputs : List Value) (opts : MapOptions) :
    Store × Except HtErr MapDir :=
  if (lookupMap s tag).isSome then
    (s, .error (.tagAlreadyExists tag))
  else
    let dir : MapDir :=
      { funcBlob := encode func
        itemdata := buildItemdata inputs.length opts
        componentCount := inputs.length
        inputBlobs := inputs.map encode
        clusterIds := []
        components := List.replicate inputs.length {} }
    let s₁ : Store := (tag, dir) :: s
    if sched.reachable then
      let dir₂ : MapDir := { dir with clusterIds := [sched.nextClusterId] }
      ((tag, dir₂) :: s, .ok dir₂)
    else
      (s₁, .error .schedulerUnavailable)

/-- Modelled from the spec: `recover(identifier)` rebuilds a Map purely from
store contents; it takes no scheduler argument because no network call is
required. -/
def recover (s : Store) (tag : Tag) : Except HtErr MapDir :=
  match lookupMap s tag with
  | some d => .ok d
  | none => .error (.tagNotFound tag)

/-- A scheduler that never confirms a submission: unreachable. -/
def neverConfirm : Scheduler := { reachable := false, nextClusterId := 0 }

/-- The scheduler-derived signal for one component: its last reported
lifecycle position.  `TERMINATED` is the scheduler's own "job finished"
signal, which says nothing about whether output was transferred.
Modelled from the spec (state machine, two independent signals). -/
inductive SchedSignal where
  | IDLE
  | RUNNING
  | HELD
  | TERMINATED
  | REMOVED
deriving DecidableEq, Repr

/-- One record of the scheduler's event stream for one component.
Modelled from the spec (event-log stream of per-component events). -/
inductive JobEvent where
  | submitted
  | executing
  | evicted
  | wentHeld
  | released
  | terminated
  | aborted
deriving DecidableEq, Repr

/-- Advance one component's scheduler-derived signal by one event.
Modelled from the spec's transition list: `IDLE → RUNNING` on execute,
`RUNNING → IDLE` on eviction (no terminal effect), `* → HELD`,
`HELD → IDLE` on release, `* → REMOVED` on abort, and the scheduler's
own terminal signal on job termination. -/
def applyEvent (_s : SchedSignal) (e : JobEvent) : SchedSignal :=
  match e with
  | .submitted => .IDLE
  | .executing => .RUNNING
  | .evicted => .IDLE
  | .wentHeld => .HELD
  | .released => .IDLE
  | .terminated => .TERMINATED
  | .aborted => .REMOVED

/-- An entry of a map's event log: the component index it concerns and the
event kind. -/
abbrev LogEntry := Nat × JobEvent

/-- The tracker's cached view: one scheduler-derived signal per component.
Modelled from the spec (recompute policy): the tracker keeps the merged
view in memory and folds only the new portion of the event log into it. -/
abbrev TrackerCache := List SchedSignal

/-- Fold a batch of new event-log entries into the tracker's cached
per-component signals.  Entries for out-of-range components are ignored. -/
def updateTracker (cache : TrackerCache) (newEvents : List LogEntry) : TrackerCache :=
  newEvents.foldl
    (fun acc entry =>
      match acc.get? entry.1 with
      | some sig => acc.set entry.1 (applyEvent sig entry.2)
      | none => acc)
    cache

/-- The scheduler-derived signal of component `i` after a whole event log,
starting from the initial `IDLE` state of every component at submission. -/
def scanSignal (events : List LogEntry) (i : Nat) : SchedSignal :=
  events.foldl (fun sig entry => if entry.1 = i then applyEvent sig entry.2 else sig) .IDLE

/-- The six public component states.  Modelled from the spec (state machine)
and the tutorial notebook (`ComponentStatus`). -/
inductive ComponentStatus where
  | IDLE
  | RUNNING
  | HELD
  | ERRORED
  | COMPLETED
  | REMOVED
deriving DecidableEq, Repr

/-- Terminal component states: no further transitions. -/
def isTerminal : ComponentStatus → Bool
  | .COMPLETED => true
  | .ERRORED => true
  | .REMOVED => true
  | _ => false

/-- Merge the two status signals for one component: the store's
output/error slots and the scheduler-derived signal.  Modelled from the
spec (tie-break rule: store-derived terminal states win) together with the
repository's documented behavior for a terminated component with no output
(`docs/source/versions/v0_4_3.rst`, Known Issues: "the component state
will just show as ERRORED, but there won't be an actual error report") —
a stored but undecodable output likewise surfaces as `ERRORED`. -/
def derive_status (cf : ComponentFiles) (sig : SchedSignal) : ComponentStatus :=
  match cf.errorBlob with
  | some _ => .ERRORED
  | none =>
    match cf.outputBlob with
    | some b =>
      match decode b with
      | .ok _ => .COMPLETED
      | .error _ => .ERRORED
    | none =>
      match sig with
      | .IDLE => .IDLE
      | .RUNNING => .RUNNING
      | .HELD => .HELD
      | .TERMINATED => .ERRORED
      | .REMOVED => .REMOVED

/-- The status of component `i` of a map, derived on demand from the store
slots and the tracker's cached scheduler signals. -/
def statusOf (d : MapDir) (cache : TrackerCache) (i : Nat) : ComponentStatus :=
  derive_status (d.components.getD i {}) (cache.getD i .IDLE)

/-- The statuses of all components of a map, in component order. -/
def mapStatuses (d : MapDir) (cache : TrackerCache) : List ComponentStatus :=
  (List.range d.componentCount).map fun i => statusOf d cache i

/-- Modelled from the repository documentation (tutorial "Basic Mapping":
`Map.remove` "deletes all traces of the map.  It can never be recovered.",
after which the tag is immediately re-usable; the spec's `remove` instead
keeps artifacts): remove asks the scheduler to cancel the map's live
components and, once the scheduler confirms, deletes every local trace of
the map — its directory and its tag entry.  If the scheduler cannot be
reached, nothing local is touched and `schedulerUnavailable` is raised. -/
def remove (sched : Scheduler) (s : Store) (tag : Tag) : Store × Except HtErr Unit :=
  match lookupMap s tag with
  | none => (s, .error (.tagNotFound tag))
  | some _ =>
    if sched.reachable then (storeDelete s tag, .ok ())
    else (s, .error .schedulerUnavailable)

/-- Modelled from the spec: `clean(identifier)` deletes all on-disk state of
a map that is already fully terminal, and refuses with `MapNotRemoved`
(deleting nothing) if any component is not in a terminal state. -/
def clean (s : Store) (cache : TrackerCache) (tag : Tag) : Store × Except HtErr Unit :=
  match lookupMap s tag with
  | none => (s, .error (.tagNotFound tag))
  | some d =>
    if (mapStatuses d cache).all isTerminal then (storeDelete s tag, .ok ())
    else (s, .error (.mapNotRemoved tag))

/-- Modelled from the spec: `force_clean` deletes the map's on-disk state
without checking component states and without contacting the scheduler. -/
def force_clean (s : Store) (tag : Tag) : Store := storeDelete s tag

/-- Modelled from the spec: `hold(identifier)` issues a scheduler command to
pause the map's idle-or-running components; the durable store is not
involved beyond looking the map up, so an unreachable scheduler leaves it
exactly as it was. -/
def hold (sched : Scheduler) (s : Store) (tag : Tag) : Store × Except HtErr Unit :=
  match lookupMap s tag with
  | none => (s, .error (.tagNotFound tag))
  | some _ =>
    if sched.reachable then (s, .ok ()) else (s, .error .schedulerUnavailable)

/-- Modelled from the spec: `release(identifier)` issues a scheduler command
to resume held components; scheduler-side only, like `hold`. -/
def release (sched : Scheduler) (s : Store) (tag : Tag) : Store × Except HtErr Unit :=
  match lookupMap s tag with
  | none => (s, .error (.tagNotFound tag))
  | some _ =>
    if sched.reachable then (s, .ok ()) else (s, .error .schedulerUnavailable)

/-- Modelled from the spec: `vacate(identifier)` asks the scheduler to evict
running components back to idle; scheduler-side only. -/
def vacate (sched : Scheduler) (s : Store) (tag : Tag) : Store × Except HtErr Unit :=
  match lookupMap s tag with
  | none => (s, .error (.tagNotFound tag))
  | some _ =>
    if sched.reachable then (s, .ok ()) else (s, .error .schedulerUnavailable)

/-- Modelled from the spec: `edit(identifier, attribute, value)` issues a
scheduler-side edit command for the map's scheduler-visible attributes.
Only the scheduler-availability aspect matters for the properties below,
so the terminal-component check on the target set is not modelled. -/
def edit (sched : Scheduler) (s : Store) (tag : Tag)
    (_attr : String) (_value : String) : Store × Except HtErr Unit :=
  match lookupMap s tag with
  | none => (s, .error (.tagNotFound tag))
  | some _ =>
    if sched.reachable then (s, .ok ()) else (s, .error .schedulerUnavailable)

/-- Read one component's output through the serialization layer: no stored
output blob is `outputNotFound`, and an undecodable blob surfaces as
`deserializationError` naming the component index rather than as the raw
low-level decode failure.  Modelled from the spec (serialization layer
failure mode). -/
def load_output (i : Nat) (cf : ComponentFiles) : Except HtErr Value :=
  match cf.outputBlob with
  | none => .error (.outputNotFound i)
  | some b =>
    match decode b with
    | .ok v => .ok v
    | .error _ => .error (.deserializationError i)

/-- A Result View cursor: the index of the next component to yield.  Each
call of the view's iterator constructs a fresh cursor at index `0`;
cursors are never shared between iterations. -/
structure MapIter where
  idx : Nat
deriving DecidableEq, Repr

/-- The fresh cursor every new iteration starts from. -/
def freshIter : MapIter := ⟨0⟩

/-- Drain a Result View cursor: yield the per-component results one index at
a time, in increasing index order, until the component count is reached.
`fuel` bounds the recursion and is always called with at least the number
of remaining components.  Modelled from the spec (Result View iteration:
outputs in original input order, component by component). -/
def drainFrom (d : MapDir) : Nat → MapIter → List (Except HtErr Value)
  | 0, _ => []
  | fuel + 1, it =>
    if it.idx < d.componentCount then
      load_output it.idx (d.components.getD it.idx {}) :: drainFrom d fuel ⟨it.idx + 1⟩
    else []

/-- A complete iteration of the Result View: drain a fresh cursor. -/
def iterOutputs (d : MapDir) : List (Except HtErr Value) :=
  drainFrom d d.componentCount freshIter

/-- The string value of each component status.  Modelled from the changelog
in `docs/source/tutorials.rst` ("ComponentStatus is now a subclass of str,
so the bare string COMPLETED can be used in place of
ComponentStatus.COMPLETED")
and the tutorial notebook output `<ComponentStatus.COMPLETED: 'COMPLETED'>`:
each member's string value is its state name. -/
def ComponentStatus.toStr : ComponentStatus → String
  | .IDLE => "IDLE"
  | .RUNNING => "RUNNING"
  | .HELD => "HELD"
  | .ERRORED => "ERRORED"
  | .COMPLETED => "COMPLETED"
  | .REMOVED => "REMOVED"

/-- Status-filtered component query (`components_by_status`), keyed by an
enum member. -/
def components_by_status (d : MapDir) (cache : TrackerCache) (q : ComponentStatus) : List Nat :=
  (List.range d.componentCount).filter fun i => decide (statusOf d cache i = q)

/-- The same query keyed by a bare string: since each status is a string
subtype equal to its state name, a component matches when its status's
string value equals the query string. -/
def components_by_status_str (d : MapDir) (cache : TrackerCache) (q : String) : List Nat :=
  (List.range d.componentCount).filter fun i => decide ((statusOf d cache i).toStr = q)

/-- A concrete completed two-component map directory, used as a test input:
inputs 5 and 6, outputs 10 and 12, cluster id 3. -/
def sampleDir : MapDir :=
  { funcBlob := encode 7
    itemdata := buildItemdata 2 ⟨[], []⟩
    componentCount := 2
    inputBlobs := [encode 5, encode 6]
    clusterIds := [3]
    components := [{ outputBlob := some (encode 10), errorBlob := none },
                   { outputBlob := some (encode 12), errorBlob := none }] }

/-- A concrete two-component map directory whose component 0 stores an
undecodable output blob (`[7]` has no format header) while component 1
stores a decodable one. -/
def badDir : MapDir :=
  { funcBlob := encode 7
    itemdata := buildItemdata 2 ⟨[], []⟩
    componentCount := 2
    inputBlobs := [encode 5, encode 6]
    clusterIds := [3]
    components := [{ outputBlob := some [7], errorBlob := none },
                   { outputBlob := some (encode 12), errorBlob := none }] }

end HTMap

namespace HTMap

theorem lookupMap_cons_self (t : Tag) (d : MapDir) (s : Store) :
    lookupMap ((t, d) :: s) t = some d := by
  simp [lookupMap]

/-- C1: submitting a map and then immediately recovering it from the store,
with the external scheduler never confirming, yields a map whose itemdata,
component count, and per-component input blobs are exactly those the
submission built from its arguments: recovery needs no scheduler contact. -/
theorem submit_then_recover_roundtrip
    (s : Store) (tag : Tag) (func : Value) (inputs : List Value)
    (opts : MapOptions)
    (hfresh : lookupMap s tag = none) (hne : inputs ≠ []) :
    ∃ d : MapDir,
      recover (create_map neverConfirm s tag func inputs opts).1 tag = .ok d ∧
      d.itemdata = buildItemdata inputs.length opts ∧
      d.componentCount = inputs.length ∧
      d.inputBlobs = inputs.map encode := by
  refine ⟨{ funcBlob := encode func, itemdata := buildItemdata inputs.length opts,
            componentCount := inputs.length, inputBlobs := inputs.map encode,
            clusterIds := [], components := List.replicate inputs.length {} },
          ?_, rfl, rfl, rfl⟩
  simp [create_map, hfresh, neverConfirm, recover, lookupMap_cons_self]

/-- Witness for C1 at a concrete submission. -/
theorem submit_then_recover_roundtrip_witness :
    ∃ d : MapDir,
      recover ((create_map neverConfirm [] "dbl" 7 [5, 6, 10] ⟨[("request_memory", "1GB")], []⟩).1) "dbl" = .ok d ∧
      d.itemdata = buildItemdata 3 ⟨[("request_memory", "1GB")], []⟩ ∧
      d.componentCount = 3 ∧
      d.inputBlobs = [5, 6, 10].map encode := by
  have h := submit_then_recover_roundtrip [] "dbl" 7 [5, 6, 10]
    ⟨[("request_memory", "1GB")], []⟩ rfl (by decide)
  simpa using h

/-- C2: creating a map under an identifier that already names an existing map
fails with `TagAlreadyExists` and returns the store unchanged — the
duplicate-tag check precedes any write, so no new on-disk state is created
and the existing map's records are untouched. -/
theorem create_map_duplicate_tag
    (sched : Scheduler) (s : Store) (tag : Tag) (func : Value)
    (inputs : List Value) (opts : MapOptions) (d : MapDir)
    (hexists : lookupMap s tag = some d) :
    create_map sched s tag func inputs opts = (s, .error (.tagAlreadyExists tag)) := by
  simp [create_map, hexists]

/-- C3: the derived status of a component is `COMPLETED` whenever a decodable
output blob is stored and no error blob is, and `ERRORED` whenever an error
blob is stored — in both cases regardless of the scheduler-derived signal
(the quantification over `sig` covers RUNNING/IDLE/HELD and more); and
re-deriving the tracker's view with no new events leaves it unchanged
(idempotent re-derivation). -/
theorem store_derived_status_precedence
    (cf : ComponentFiles) (sig : SchedSignal) (cache : TrackerCache) :
    (∀ b v, cf.errorBlob = none → cf.outputBlob = some b → decode b = .ok v →
      derive_status cf sig = .COMPLETED) ∧
    (∀ eb, cf.errorBlob = some eb → derive_status cf sig = .ERRORED) ∧
    updateTracker cache [] = cache := by
  refine ⟨?_, ?_, rfl⟩
  · intro b v herr hout hdec
    simp [derive_status, herr, hout, hdec]
  · intro eb herr
    simp [derive_status, herr]

/-- Witness for C3 at a concrete component: a stored decodable output with no
error blob derives `COMPLETED` even while the scheduler still reports the
component `RUNNING`, and a stored error blob derives `ERRORED` even under a
`HELD` signal. -/
theorem store_derived_status_precedence_witness :
    derive_status { outputBlob := some (encode 4), errorBlob := none } .RUNNING = .COMPLETED ∧
    derive_status { outputBlob := none, errorBlob := some [9] } .HELD = .ERRORED ∧
    updateTracker [.RUNNING, .HELD] [] = [.RUNNING, .HELD] := by
  refine ⟨?_, ?_, (store_derived_status_precedence {} .IDLE [.RUNNING, .HELD]).2.2⟩
  · exact (store_derived_status_precedence
      { outputBlob := some (encode 4), errorBlob := none } .RUNNING []).1
      (encode 4) 4 rfl rfl rfl
  · exact (store_derived_status_precedence
      { outputBlob := none, errorBlob := some [9] } .HELD []).2.1 [9] rfl

/-- C4 counterexample: a component whose event log ends with the scheduler's
"job finished" signal but for which neither an output blob nor an error
blob exists is reported as the terminal state `ERRORED`, not as its last
known pre-terminal state (which here would be `RUNNING`): the claim that
the tracker reports a pre-terminal state in this situation is false, as
documented in the repository's known issues (v0.4.3). -/
theorem terminated_without_output_not_preterminal :
    derive_status { outputBlob := none, errorBlob := none }
        (scanSignal [(0, .executing), (0, .terminated)] 0) = .ERRORED ∧
    isTerminal (derive_status { outputBlob := none, errorBlob := none }
        (scanSignal [(0, .executing), (0, .terminated)] 0)) = true ∧
    derive_status { outputBlob := none, errorBlob := none }
        (scanSignal [(0, .executing), (0, .terminated)] 0) ≠ .RUNNING := by
  decide

/-- C4 amended: a component that the scheduler's event stream reports as
finished but for which neither an output blob nor an error blob exists in
the store is reported as `ERRORED` (a generic terminal error without an
error report), per the repository's known-issues documentation. -/
theorem terminated_without_output_is_errored
    (cf : ComponentFiles)
    (hout : cf.outputBlob = none) (herr : cf.errorBlob = none) :
    derive_status cf .TERMINATED = .ERRORED := by
  simp [derive_status, hout, herr]

/-- Witness for the amended C4 at a concrete component. -/
theorem terminated_without_output_is_errored_witness :
    derive_status { outputBlob := none, errorBlob := none } .TERMINATED = .ERRORED :=
  terminated_without_output_is_errored { outputBlob := none, errorBlob := none } rfl rfl

/-- Witness for C2: re-using the tag of an existing map fails and leaves the
store byte-for-byte as it was. -/
theorem create_map_duplicate_tag_witness :
    create_map ⟨true, 42⟩
        [("dbl", { funcBlob := encode 7, itemdata := [], componentCount := 0,
                   inputBlobs := [], clusterIds := [3], components := [] })]
        "dbl" 9 [1, 2] ⟨[], []⟩ =
      ([("dbl", { funcBlob := encode 7, itemdata := [], componentCount := 0,
                  inputBlobs := [], clusterIds := [3], components := [] })],
       .error (.tagAlreadyExists ("dbl"))) := by
  exact create_map_duplicate_tag ⟨true, 42⟩ _ "dbl" 9 [1, 2] ⟨[], []⟩ _ rfl

theorem not_mem_list_identifiers_storeDelete (s : Store) (tag : Tag) :
    tag ∉ list_identifiers (storeDelete s tag) := by
  intro hmem
  simp only [list_identifiers, storeDelete, List.mem_map] at hmem
  obtain ⟨e, he, heq⟩ := hmem
  rw [List.mem_filter] at he
  exact absurd heq (by simpa using he.2)

/-- C5 counterexample: on a concrete store holding one completed map under
tag "dbl", `remove` (with the scheduler reachable and confirming) succeeds
and afterwards no record for "dbl" exists in the store — the map's on-disk
artifacts (inputs, outputs, itemdata) are all gone, contradicting the
claim that removal leaves them present and browsable. -/
theorem remove_deletes_all_traces :
    (remove ⟨true, 5⟩ [("dbl", sampleDir)] "dbl").2 = .ok () ∧
    lookupMap ((remove ⟨true, 5⟩ [("dbl", sampleDir)] "dbl").1) "dbl" = none ∧
    list_identifiers (remove ⟨true, 5⟩ [("dbl", sampleDir)] "dbl").1 = [] :=
  ⟨rfl, rfl, rfl⟩

/-- C5 amended: for every existing map, `remove` with a reachable scheduler
requests cancellation, succeeds, and deletes every local trace of the map
(its directory and its tag entry), so the identifier no longer appears in
`list_identifiers` and is immediately reusable; outputs are not browsable
afterwards. -/
theorem remove_cancels_and_deletes
    (sched : Scheduler) (s : Store) (tag : Tag) (d : MapDir)
    (hd : lookupMap s tag = some d) (hr : sched.reachable = true) :
    remove sched s tag = (storeDelete s tag, .ok ()) ∧
    tag ∉ list_identifiers (remove sched s tag).1 := by
  have h : remove sched s tag = (storeDelete s tag, .ok ()) := by
    simp [remove, hd, hr]
  exact ⟨h, by rw [h]; exact not_mem_list_identifiers_storeDelete s tag⟩

/-- Witness for the amended C5 at a concrete store. -/
theorem remove_cancels_and_deletes_witness :
    remove ⟨true, 5⟩ [("dbl", sampleDir)] "dbl" =
      (storeDelete [("dbl", sampleDir)] "dbl", .ok ()) ∧
    "dbl" ∉ list_identifiers (remove ⟨true, 5⟩ [("dbl", sampleDir)] "dbl").1 :=
  remove_cancels_and_deletes ⟨true, 5⟩ [("dbl", sampleDir)] "dbl" sampleDir rfl rfl

/-- C6: on a map with at least one component not in a terminal state,
`clean` fails with `MapNotRemoved` and returns the store unchanged,
deleting no on-disk records; `force_clean` on the same map does not check
component states, and afterwards the identifier is absent from
`list_identifiers`. -/
theorem clean_refuses_nonterminal
    (s : Store) (cache : TrackerCache) (tag : Tag) (d : MapDir)
    (hd : lookupMap s tag = some d)
    (hnt : (mapStatuses d cache).all isTerminal = false) :
    clean s cache tag = (s, .error (.mapNotRemoved tag)) ∧
    tag ∉ list_identifiers (force_clean s tag) := by
  constructor
  · simp [clean, hd, hnt]
  · exact not_mem_list_identifiers_storeDelete s tag

/-- Witness for C6: a one-component map whose component is still `IDLE`. -/
theorem clean_refuses_nonterminal_witness :
    clean [("w", { funcBlob := encode 1, itemdata := buildItemdata 1 ⟨[], []⟩,
                   componentCount := 1, inputBlobs := [encode 2],
                   clusterIds := [], components := [{}] })] [] "w" =
      ([("w", { funcBlob := encode 1, itemdata := buildItemdata 1 ⟨[], []⟩,
                componentCount := 1, inputBlobs := [encode 2],
                clusterIds := [], components := [{}] })],
       .error (.mapNotRemoved ("w"))) ∧
    "w" ∉ list_identifiers (force_clean
      [("w", { funcBlob := encode 1, itemdata := buildItemdata 1 ⟨[], []⟩,
               componentCount := 1, inputBlobs := [encode 2],
               clusterIds := [], components := [{}] })] "w") :=
  clean_refuses_nonterminal _ [] "w" _ rfl (by decide)

theorem drainFrom_eq (d : MapDir) :
    ∀ (fuel i : Nat), d.componentCount - i ≤ fuel →
      drainFrom d fuel ⟨i⟩ =
        (List.range' i (d.componentCount - i)).map
          (fun j => load_output j (d.components.getD j {})) := by
  intro fuel
  induction fuel with
  | zero =>
    intro i h
    have h0 : d.componentCount - i = 0 := Nat.le_zero.mp h
    simp [drainFrom, h0]
  | succ fuel ih =>
    intro i h
    by_cases hi : i < d.componentCount
    · have hsub : d.componentCount - i = (d.componentCount - (i + 1)) + 1 := by omega
      rw [drainFrom]
      simp only [hi, if_true]
      rw [ih (i + 1) (by omega), hsub, List.range'_succ]
      rfl
    · have h0 : d.componentCount - i = 0 := by omega
      rw [drainFrom]
      simp [hi, h0]

theorem iterOutputs_eq (d : MapDir) :
    iterOutputs d =
      (List.range d.componentCount).map
        (fun j => load_output j (d.components.getD j {})) := by
  have h := drainFrom_eq d d.componentCount 0 (by omega)
  simpa [iterOutputs, freshIter, List.range_eq_range'] using h

/-- C7: iterating the Result View of a map whose every component has a
decodable output yields those outputs in original input order (component
index 0, 1, 2, ...); and draining the remainder of a partially consumed
cursor yields exactly the tail of that same ordered sequence, while every
fresh iteration by definition starts from the cursor at index 0, so two
complete iterations produce this same ordered list both times. -/
theorem result_view_ordered_restartable
    (d : MapDir) (outs : Nat → Value)
    (hout : ∀ i, i < d.componentCount →
      load_output i (d.components.getD i {}) = .ok (outs i)) :
    iterOutputs d =
      (List.range d.componentCount).map (fun i => (Except.ok (outs i) : Except HtErr Value)) ∧
    ∀ k, drainFrom d (d.componentCount - k) ⟨k⟩ =
      (List.range' k (d.componentCount - k)).map
        (fun i => (Except.ok (outs i) : Except HtErr Value)) := by
  constructor
  · rw [iterOutputs_eq]
    exact List.map_congr_left fun i hi => hout i (List.mem_range.mp hi)
  · intro k
    rw [drainFrom_eq d (d.componentCount - k) k (Nat.le_refl _)]
    exact List.map_congr_left fun i hi => hout i (by
      have := List.mem_range'_1.mp hi
      omega)

/-- Witness for C7 on the concrete completed map `sampleDir`
(outputs 10 and 12). -/
theorem result_view_ordered_restartable_witness :
    iterOutputs sampleDir =
      (List.range sampleDir.componentCount).map
        (fun i => (Except.ok (10 + 2 * i) : Except HtErr Value)) ∧
    ∀ k, drainFrom sampleDir (sampleDir.componentCount - k) ⟨k⟩ =
      (List.range' k (sampleDir.componentCount - k)).map
        (fun i => (Except.ok (10 + 2 * i) : Except HtErr Value)) :=
  result_view_ordered_restartable sampleDir (fun i => 10 + 2 * i)
    (by
      intro i hi
      have h2 : i < 2 := hi
      interval_cases i <;> rfl)

/-- C8: a component whose stored output blob cannot be decoded surfaces as
`DeserializationError` naming that component's index, not as the raw
low-level decode failure; and this failure is isolated: any sibling
component's entry in the iteration is exactly its own load result, and a
component's derived status depends only on that component's store slot,
so one component's decode failure affects neither iteration over nor
status reporting of the others. -/
theorem deserialization_error_isolated
    (d : MapDir) (i j : Nat) (b : Blob) (e : DecodeErr)
    (hb : (d.components.getD i {}).outputBlob = some b)
    (he : decode b = .error e)
    (hij : i ≠ j) (hj : j < d.componentCount) :
    load_output i (d.components.getD i {}) = .error (.deserializationError i) ∧
    (iterOutputs d)[j]? = some (load_output j (d.components.getD j {})) ∧
    ∀ (d₂ : MapDir) (cache : TrackerCache),
      d₂.components.getD j {} = d.components.getD j {} →
      statusOf d₂ cache j = statusOf d cache j := by
  refine ⟨?_, ?_, ?_⟩
  · simp only [load_output, hb, he]
  · rw [iterOutputs_eq, List.getElem?_map, List.getElem?_range hj]
    rfl
  · intro d₂ cache hagree
    unfold statusOf
    rw [hagree]

/-- Witness for C8: component 0 stores the undecodable blob `[7]`, while
component 1 stores a decodable output; component 1 still iterates to its
value and still reports `COMPLETED`. -/
theorem deserialization_error_isolated_witness :
    load_output 0 ((badDir.components.getD 0 {})) = .error (.deserializationError 0) ∧
    (iterOutputs badDir)[1]? = some (load_output 1 (badDir.components.getD 1 {})) ∧
    ∀ (d₂ : MapDir) (cache : TrackerCache),
      d₂.components.getD 1 {} = badDir.components.getD 1 {} →
      statusOf d₂ cache 1 = statusOf badDir cache 1 :=
  deserialization_error_isolated badDir 0 1 [7] .badFormat rfl rfl
    (by decide) (by decide)

/-- C9 counterexample: `submit` on an empty store with the scheduler
unreachable raises `SchedulerUnavailable`, but the durable store is *not*
left exactly as it was before the call: the map's records were written to
disk before the scheduler was contacted (the spec's own round-trip law
and crash-recovery scenario require exactly this), so the store is no
longer empty. -/
theorem submit_unavailable_mutates_store :
    (create_map neverConfirm [] "t" 1 [2] ⟨[], []⟩).2 = .error .schedulerUnavailable ∧
    (create_map neverConfirm [] "t" 1 [2] ⟨[], []⟩).1 ≠ [] :=
  ⟨rfl, fun h => List.noConfusion h⟩

/-- C9 amended: when the scheduler is unreachable, every scheduler-requiring
operation raises `SchedulerUnavailable`; `remove`, `edit`, `hold`,
`release` and `vacate` leave the store exactly as it was, while `submit`
leaves exactly its durable pre-scheduler write in place (the new map is
recoverable from disk); and `recover` — which takes no scheduler argument
at all — still reads any existing map, unaffected by the scheduler. -/
theorem scheduler_unavailable_semantics
    (sched : Scheduler) (s : Store) (tag : Tag) (d : MapDir)
    (hs : sched.reachable = false) (hd : lookupMap s tag = some d) :
    remove sched s tag = (s, .error .schedulerUnavailable) ∧
    hold sched s tag = (s, .error .schedulerUnavailable) ∧
    release sched s tag = (s, .error .schedulerUnavailable) ∧
    vacate sched s tag = (s, .error .schedulerUnavailable) ∧
    (∀ a v, edit sched s tag a v = (s, .error .schedulerUnavailable)) ∧
    recover s tag = .ok d ∧
    ∀ tag₂ func inputs opts, lookupMap s tag₂ = none →
      (create_map sched s tag₂ func inputs opts).2 = .error .schedulerUnavailable ∧
      (∃ d₂, recover (create_map sched s tag₂ func inputs opts).1 tag₂ = .ok d₂) ∧
      recover (create_map sched s tag₂ func inputs opts).1 tag = .ok d := by
  refine ⟨by simp [remove, hd, hs], by simp [hold, hd, hs], by simp [release, hd, hs],
          by simp [vacate, hd, hs], fun a v => by simp [edit, hd, hs],
          by simp [recover, hd], ?_⟩
  intro tag₂ func inputs opts hfresh
  have hne : tag₂ ≠ tag := by
    intro heq
    rw [heq, hd] at hfresh
    exact Option.noConfusion hfresh
  refine ⟨by simp [create_map, hfresh, hs], ?_, ?_⟩
  · refine ⟨{ funcBlob := encode func, itemdata := buildItemdata inputs.length opts,
              componentCount := inputs.length, inputBlobs := inputs.map encode,
              clusterIds := [], components := List.replicate inputs.length {} }, ?_⟩
    simp [create_map, hfresh, hs, recover, lookupMap_cons_self]
  · simp [create_map, hfresh, hs, recover, lookupMap, hne, hd]

/-- Witness for the amended C9 on a concrete store with one existing map
and a fresh tag. -/
theorem scheduler_unavailable_semantics_witness :
    remove neverConfirm [("dbl", sampleDir)] "dbl" =
      ([("dbl", sampleDir)], .error .schedulerUnavailable) ∧
    hold neverConfirm [("dbl", sampleDir)] "dbl" =
      ([("dbl", sampleDir)], .error .schedulerUnavailable) ∧
    release neverConfirm [("dbl", sampleDir)] "dbl" =
      ([("dbl", sampleDir)], .error .schedulerUnavailable) ∧
    vacate neverConfirm [("dbl", sampleDir)] "dbl" =
      ([("dbl", sampleDir)], .error .schedulerUnavailable) ∧
    (∀ a v, edit neverConfirm [("dbl", sampleDir)] "dbl" a v =
      ([("dbl", sampleDir)], .error .schedulerUnavailable)) ∧
    recover [("dbl", sampleDir)] "dbl" = .ok sampleDir ∧
    ∀ tag₂ func inputs opts, lookupMap [("dbl", sampleDir)] tag₂ = none →
      (create_map neverConfirm [("dbl", sampleDir)] tag₂ func inputs opts).2 =
        .error .schedulerUnavailable ∧
      (∃ d₂, recover (create_map neverConfirm [("dbl", sampleDir)] tag₂ func inputs opts).1 tag₂ =
        .ok d₂) ∧
      recover ((create_map neverConfirm [("dbl", sampleDir)] tag₂ func inputs opts).1) "dbl" =
        .ok sampleDir :=
  scheduler_unavailable_semantics neverConfirm [("dbl", sampleDir)] "dbl" sampleDir rfl rfl

theorem toStr_inj (a b : ComponentStatus) : a.toStr = b.toStr ↔ a = b := by
  cases a <;> cases b <;> simp [ComponentStatus.toStr]

/-- C10: every component status is a string subtype equal to its state name
— the string value of each of the six members is exactly that member's
name — and a bare string is accepted wherever a status is expected: the
status-filtered component query keyed by the string value of a status
returns exactly the same component set as the query keyed by the status
itself. -/
theorem component_status_str_subtype :
    ComponentStatus.toStr .IDLE = "IDLE" ∧
    ComponentStatus.toStr .RUNNING = "RUNNING" ∧
    ComponentStatus.toStr .HELD = "HELD" ∧
    ComponentStatus.toStr .ERRORED = "ERRORED" ∧
    ComponentStatus.toStr .COMPLETED = "COMPLETED" ∧
    ComponentStatus.toStr .REMOVED = "REMOVED" ∧
    ∀ (d : MapDir) (cache : TrackerCache) (st : ComponentStatus),
      components_by_status_str d cache st.toStr = components_by_status d cache st := by
  refine ⟨rfl, rfl, rfl, rfl, rfl, rfl, ?_⟩
  intro d cache st
  unfold components_by_status_str components_by_status
  congr 1
  funext i
  exact decide_eq_decide.mpr (toStr_inj _ _)

end HTMap
